import Mathlib

/-!
Verification of the ledsign scheduling and recovery engine.

This file gives a shallow embedding, in Lean, of the scheduling core of the
ledsign repository (files `app.py`, `sign.py`, `sql.py` and the `web/`
iteration `web/app.py`, `web/form.py`, `web/sign.py`, `web/sql.py`) and
proves or refutes the frozen specification claims about it.

Conventions of the embedding:
* Python strings are Lean `String`s; Python `int` is Lean `Int`.
* Python string primitives (`split`, `strip`, `lstrip`, slicing) are
  re-implemented on `List Char` so that every definition evaluates inside
  the kernel.
* Fallible Python operations (`int(...)`, `datetime.fromisoformat`,
  dictionary/row subscripting) are modelled with `Option`/`Except`.
* SQLite tables are lists of row structures; a SQL `DELETE ... WHERE p`
  is a list filter, a `SELECT ... WHERE id = ?` is a `find?`.
* The device channel (a Unix socket owned by an external C++ process) is a
  parameter `Channel : String -> ChannelOutcome` describing, for each wire
  line written to the socket, whether the connection succeeded and what
  single-line response came back, or which exception the socket raised.
-/

set_option linter.unusedVariables false

namespace LedSign

/-! ## Python string/number primitives used by the code -/

/-- `splitChar sep cs` splits `cs` at every occurrence of `sep`, keeping
empty chunks: the semantics of Python `str.split(sep)` with a one-character
separator. -/
def splitChar (sep : Char) : List Char → List (List Char)
  | [] => [[]]
  | c :: rest =>
    let r := splitChar sep rest
    if c = sep then [] :: r
    else
      match r with
      | h :: t => (c :: h) :: t
      | [] => [[c]]

/-- Python `s.split(sep)` for a one-character separator. -/
def pySplit (s : String) (sep : Char) : List String :=
  (splitChar sep s.data).map String.mk

/-- Python `s.strip()`. -/
def pyStrip (s : String) : String :=
  String.mk ((((s.data.dropWhile Char.isWhitespace).reverse).dropWhile
    Char.isWhitespace).reverse)

/-- Python `s.lstrip(c)` for a one-character argument: drops every leading
occurrence of `c`. -/
def pyLstrip (s : String) (c : Char) : String :=
  String.mk (s.data.dropWhile (· == c))

/-- Python slice `s[a:b]` (with clamping, never raising). -/
def pySlice (s : String) (a b : Nat) : String :=
  String.mk ((s.data.drop a).take (b - a))

/-- Python `sep.join(parts)` for a one-character separator. -/
def pyJoin (sep : Char) : List String → String
  | [] => ""
  | h :: t => t.foldl (fun acc p => acc ++ String.mk [sep] ++ p) h

/-- Model of Python `int(s)`: strips surrounding whitespace, accepts an
optional sign followed by one or more decimal digits, and raises
`ValueError` (here `none`) otherwise.  Underscore digit separators are not
modelled; no input this repository feeds to `int` uses them. -/
def pyInt? (s : String) : Option Int :=
  match (pyStrip s).data with
  | [] => none
  | c :: rest =>
    let (neg, digits) :=
      if c = '-' then (true, rest)
      else if c = '+' then (false, rest)
      else (false, c :: rest)
    if digits.isEmpty then none
    else if digits.all Char.isDigit then
      let n : Nat := digits.foldl (fun acc d => acc * 10 + (d.toNat - 48)) 0
      some (if neg then -(n : Int) else (n : Int))
    else none

/-- Model of Python `int(s, 16)` as used on two-character colour slices:
one or more hexadecimal digits, otherwise `ValueError` (`none`).  In
particular `int("", 16)` raises. -/
def pyHex? (s : String) : Option Nat :=
  let ds := (pyStrip s).data
  if ds.isEmpty then none
  else if ds.all (fun c => c.isDigit || (('a' ≤ c && c ≤ 'f') || ('A' ≤ c && c ≤ 'F'))) then
    some (ds.foldl
      (fun acc d =>
        acc * 16 +
          (if d.isDigit then d.toNat - 48
           else if 'a' ≤ d then d.toNat - 87 else d.toNat - 55)) 0)
  else none

/-- `allSome [some a, some b, ...] = some [a, b, ...]`; `none` as soon as one
entry is `none`.  Used to model a Python loop of `int(...)` calls inside a
`try` block: the first `ValueError` aborts the whole computation. -/
def allSome {α : Type} : List (Option α) → Option (List α)
  | [] => some []
  | none :: _ => none
  | some a :: rest => (allSome rest).map (a :: ·)

/-- A run of exactly `len` decimal digits, as a number. -/
def digitsNat? (cs : List Char) (len : Nat) : Option Nat :=
  if cs.length = len ∧ cs.all Char.isDigit then
    some (cs.foldl (fun acc d => acc * 10 + (d.toNat - 48)) 0)
  else none

/-- `YYYY-MM-DD` date part of `datetime.fromisoformat`, encoded as a single
natural number that orders dates chronologically. -/
def pyDate? (s : String) : Option Nat :=
  match pySplit s '-' with
  | [y, mo, d] => do
    let yn ← digitsNat? y.data 4
    let mn ← digitsNat? mo.data 2
    let dn ← digitsNat? d.data 2
    if 1 ≤ mn ∧ mn ≤ 12 ∧ 1 ≤ dn ∧ dn ≤ 31 then
      some ((yn * 13 + mn) * 32 + dn)
    else none
  | _ => none

/-- `HH:MM` or `HH:MM:SS` time part of `datetime.fromisoformat`, as seconds
since midnight. -/
def pyTime? (s : String) : Option Nat :=
  match pySplit s ':' with
  | [h, m] => do
    let hn ← digitsNat? h.data 2
    let mn ← digitsNat? m.data 2
    if hn ≤ 23 ∧ mn ≤ 59 then some (hn * 3600 + mn * 60) else none
  | [h, m, sec] => do
    let hn ← digitsNat? h.data 2
    let mn ← digitsNat? m.data 2
    let sn ← digitsNat? sec.data 2
    if hn ≤ 23 ∧ mn ≤ 59 ∧ sn ≤ 59 then some (hn * 3600 + mn * 60 + sn) else none
  | _ => none

/-- Splits a string at the first space or `T` into at most two chunks
(the date and time parts of an ISO timestamp). -/
def splitDateTime (cs : List Char) : List Char × Option (List Char) :=
  match cs with
  | [] => ([], none)
  | c :: rest =>
    if c = ' ' ∨ c = 'T' then ([], some rest)
    else
      let (d, t) := splitDateTime rest
      (c :: d, t)

/-- Model of Python `datetime.fromisoformat`, restricted to the shapes this
repository actually stores (`YYYY-MM-DD`, `YYYY-MM-DD HH:MM[:SS]` and the
HTML form variant `YYYY-MM-DDTHH:MM`), returning a key that orders
timestamps chronologically, or `none` where Python raises `ValueError`. -/
def fromiso? (s : String) : Option Nat :=
  match splitDateTime s.data with
  | (d, none) => (pyDate? (String.mk d)).map (· * 86400)
  | (d, some t) => do
    let dk ← pyDate? (String.mk d)
    let tk ← pyTime? (String.mk t)
    some (dk * 86400 + tk)

/-- Python truthiness of an optional string column value: `NULL` and `""`
are falsy. -/
def pyTruthyStr : Option String → Bool
  | none => false
  | some s => !(s == "")

/-! ## Weekdays and cron rules (Trigger Resolver, `create_cron_from_weekdays_time`)

The storage and API encode weekdays as 0=Monday..6=Sunday; crontab
day-of-week fields use 0=Sunday..6=Saturday.  `sql.py` and `web/sql.py`
contain the byte-identical resolver helper `create_cron_from_weekdays_time`.
-/

inductive Weekday : Type where
  | monday | tuesday | wednesday | thursday | friday | saturday | sunday
deriving DecidableEq, Fintype

/-- Storage/API weekday encoding (0=Monday..6=Sunday). -/
def storageCode : Weekday → Int
  | .monday => 0
  | .tuesday => 1
  | .wednesday => 2
  | .thursday => 3
  | .friday => 4
  | .saturday => 5
  | .sunday => 6

/-- Crontab day-of-week encoding (0=Sunday..6=Saturday). -/
def cronCode : Weekday → Int
  | .sunday => 0
  | .monday => 1
  | .tuesday => 2
  | .wednesday => 3
  | .thursday => 4
  | .friday => 5
  | .saturday => 6

/-- The per-day conversion inside `create_cron_from_weekdays_time`:
`cron_day = 0 if day_int == 6 else day_int + 1`. -/
def cron_day (day_int : Int) : Int := if day_int = 6 then 0 else day_int + 1

/-- The same conversion as a self-map of `Fin 7` (both weekday encodings
inhabit `{0..6}`). -/
def cronDayFin (d : Fin 7) : Fin 7 :=
  ⟨if d.val = 6 then 0 else d.val + 1, by split <;> omega⟩

/-- `create_cron_from_weekdays_time` from `sql.py` (line 426) and
`web/sql.py` (line 323): builds the crontab expression
`"{minute} {hour} * * {days}"` from a comma-separated storage weekday list
and an `HH:MM` time, converting each weekday with `cron_day`; returns
`None` if either input is empty or any `int(...)` raises (which also
covers a time string that does not split into exactly two parts). -/
def create_cron_from_weekdays_time (weekdays_str time_str : String) : Option String :=
  if weekdays_str == "" || time_str == "" then none
  else
    match (pySplit time_str ':').map pyInt? with
    | [some hour, some minute] =>
      let days := (pySplit weekdays_str ',').map (fun day => pyInt? (pyStrip day))
      match allSome days with
      | some ds =>
        let cron_weekdays := ds.map (fun d => toString (cron_day d))
        some (toString minute ++ " " ++ toString hour ++ " * * "
          ++ pyJoin ',' cron_weekdays)
      | none => none
    | _ => none

/-- A parsed five-field cron rule of the restricted shape this repository
produces (`day-of-month` and `month` always `*`).  A `none` field stands
for `*`. -/
structure CronRule : Type where
  minute : Option Int
  hour : Option Int
  dayOfWeek : Option (List Int)
deriving DecidableEq

/-- Parses one numeric cron field: `*`, or an integer within
`[lo, hi]`. -/
def cronField? (lo hi : Int) (f : String) : Option (Option Int) :=
  if f = "*" then some none
  else
    match pyInt? f with
    | some v => if lo ≤ v ∧ v ≤ hi then some (some v) else none
    | none => none

/-- Modelled from the spec (the APScheduler `CronTrigger.from_crontab`
collaborator is outside the repository): parses a five-field crontab
expression of the shapes this code produces (`"M H * * d1,d2,..."`,
`"0 * * * *"`, `"0 9 * * *"`), validating the numeric ranges
(minute 0-59, hour 0-23, day-of-week 0-6); out-of-range or unparsable
fields raise `ValueError` (here `none`). -/
def from_crontab (expr : String) : Option CronRule :=
  match (pySplit expr ' ').filter (fun f => !(f == "")) with
  | [mi, h, dom, mon, dow] =>
    if dom = "*" ∧ mon = "*" then
      match cronField? 0 59 mi, cronField? 0 23 h with
      | some m, some hh =>
        if dow = "*" then some ⟨m, hh, none⟩
        else
          match allSome ((pySplit dow ',').map pyInt?) with
          | some ds =>
            if ds.all (fun d => decide (0 ≤ d) && decide (d ≤ 6)) then
              some ⟨m, hh, some ds⟩
            else none
          | none => none
      | _, _ => none
    else none
  | _ => none

/-- Modelled from the spec: a weekly cron rule fires at exactly the local
times whose minute and hour match (a `*` field matches every value) and
whose weekday (in the crontab 0=Sunday encoding) is listed in the
day-of-week field (`*` matches every weekday). -/
def cronFires (r : CronRule) (w : Weekday) (hour minute : Int) : Prop :=
  (match r.minute with | none => True | some m => minute = m) ∧
  (match r.hour with | none => True | some h => hour = h) ∧
  (match r.dayOfWeek with
   | none => True
   | some ds => cronCode w ∈ ds)

/-- Claim C3: for weekday set `{0,2,4}` (storage encoding 0=Monday) and time
`09:30`, the resolver produces the crontab rule `30 9 * * 1,3,5`, which
fires exactly on Monday, Wednesday and Friday at 09:30 and never on the
other weekdays; the per-day conversion is `6 ↦ 0`, `d ↦ d+1`, a bijection
of `{0..6}` that maps each storage-encoded weekday to the crontab encoding
of the same day. -/
theorem create_cron_mwf_0930_correct :
    create_cron_from_weekdays_time "0,2,4" "09:30" = some "30 9 * * 1,3,5"
    ∧ from_crontab "30 9 * * 1,3,5" = some ⟨some 30, some 9, some [1, 3, 5]⟩
    ∧ (∀ (w : Weekday) (hh mm : Int),
        cronFires ⟨some 30, some 9, some [1, 3, 5]⟩ w hh mm ↔
          (hh = 9 ∧ mm = 30 ∧ (w = .monday ∨ w = .wednesday ∨ w = .friday)))
    ∧ (∀ d : Int, cron_day d = if d = 6 then 0 else d + 1)
    ∧ (∀ d : Fin 7, ((cronDayFin d).val : Int) = cron_day (d.val : Int))
    ∧ Function.Bijective cronDayFin
    ∧ (∀ w : Weekday, cron_day (storageCode w) = cronCode w) := by
  refine ⟨by decide, by decide, ?_, fun d => rfl, by decide, by decide, by decide⟩
  intro w hh mm
  cases w <;> simp [cronFires, cronCode] <;> tauto

/-! ## The durable store (schema of `web/sql.py` `init_db`)

Template payloads are stored as JSON text and every consumer first runs
them through `parseJSONPayload` (JSON parse, `None` on failure).  The
embedding carries the parse result directly: `payloadData = none` models a
payload that is not valid JSON, and a parsed payload is modelled as a JSON
object with the optional keys the executor destructures (`name`, `items`).
Payloads parsing to other JSON shapes (a bare list) are outside this
model. -/

/-- One entry of a template payload `items` list.  Absent JSON keys are
`none`; the consumers apply their `dict.get` defaults.  Colour values are
modelled as already-structured integer triples. -/
structure PayloadItem : Type where
  type_ : Option String := none
  content : Option String := none
  x : Option Int := none
  y : Option Int := none
  color : Option (Int × Int × Int) := none
  speed : Option Int := none
deriving DecidableEq

/-- The parsed JSON object of a template payload. -/
structure TemplateData : Type where
  tname : Option String := none
  items : Option (List PayloadItem) := none
deriving DecidableEq

/-- A row of `templates(id, name, payload)`; `payloadData` is
`parseJSONPayload(payload)`. -/
structure TemplateRow : Type where
  id : Nat
  name : String
  payloadData : Option TemplateData
deriving DecidableEq

/-- A row of `schedule(id, name, scheduled_datetime, is_recurring,
recurring_weekdays, template_id)` — the `web/sql.py` schema, which has no
`recurring_time` column. -/
structure ScheduleRow : Type where
  id : Nat
  name : String
  scheduled_datetime : String
  is_recurring : Bool
  recurring_weekdays : Option String := none
  template_id : Option Nat := none
deriving DecidableEq

/-- The singleton `last_run(id=1, last_run_datetime, schedule_id)` row;
both columns are nullable. -/
structure LastRunRow : Type where
  last_run_datetime : Option String
  schedule_id : Option Nat
deriving DecidableEq

/-- The durable store owned by the web iteration. -/
structure WebDb : Type where
  templates : List TemplateRow
  schedule : List ScheduleRow
  lastRun : Option LastRunRow
deriving DecidableEq

/-- Python truthiness of a nullable integer column: `NULL` and `0` are
falsy. -/
def pyTruthyNat : Option Nat → Bool
  | none => false
  | some n => !(n == 0)

/-- `get_scheduled_item` (`web/sql.py` line 124):
`SELECT * FROM schedule WHERE id = ?`, `fetchone()`. -/
def get_scheduled_item (db : WebDb) (item_id : Nat) : Option ScheduleRow :=
  db.schedule.find? (fun r => r.id == item_id)

/-- `get_template` (`web/sql.py` line 279):
`SELECT * FROM templates WHERE id = ?`, `fetchone()`. -/
def get_template (db : WebDb) (template_id : Nat) : Option TemplateRow :=
  db.templates.find? (fun r => r.id == template_id)

/-- Lexicographic (codepoint) order on character lists: for the ASCII ISO
strings this store holds, this is exactly the byte-wise `memcmp` order
SQLite uses to compare `TEXT` values. -/
def listCharLt : List Char → List Char → Bool
  | [], [] => false
  | [], _ :: _ => true
  | _ :: _, [] => false
  | a :: as, b :: bs =>
    if a.toNat < b.toNat then true
    else if b.toNat < a.toNat then false
    else listCharLt as bs

/-- The SQLite `TEXT <` comparison on two stored strings. -/
def sqlTextLt (a b : String) : Bool := listCharLt a.data b.data

/-- `clear_expired_scheduled_items` (`web/sql.py` line 188):
`DELETE FROM schedule WHERE scheduled_datetime < ? AND is_recurring = 0`.
Returns the rows remaining after the deletion. -/
def clear_expired_scheduled_items (before_datetime : String)
    (rows : List ScheduleRow) : List ScheduleRow :=
  rows.filter (fun r =>
    !(sqlTextLt r.scheduled_datetime before_datetime && !r.is_recurring))

/-! ## Startup reconciliation (`load_scheduled_jobs`)

Both iterations register jobs with APScheduler.  A registration is
modelled by the job id and trigger passed to `scheduler.add_job`; an
exception reaching the per-row `except Exception` is `errored` (row left
unscheduled, loop continues); a non-recurring row whose timestamp is past
is `skippedPast`. -/

/-- An APScheduler trigger as the code constructs it. -/
inductive Trigger : Type where
  | date (runDateKey : Nat)
  | cron (rule : CronRule)
deriving DecidableEq

/-- Outcome of processing one schedule row during reconciliation. -/
inductive LoadResult : Type where
  | skippedPast
  | errored (msg : String)
  | registered (jobId : String) (trigger : Trigger)
deriving DecidableEq

/-- `scheduler.add_job(..., trigger=CronTrigger.from_crontab(expr), id=f"schedule_{id}")`:
an invalid expression raises `ValueError` (caught by the per-row handler). -/
def registerCron (item_id : Nat) (expr : String) : LoadResult :=
  match from_crontab expr with
  | some rule => .registered ("schedule_" ++ toString item_id) (.cron rule)
  | none => .errored "ValueError: invalid crontab expression"

/-- One iteration of the row loop of `load_scheduled_jobs` in
`web/app.py` (lines 59-109).  The template payload is fetched (when
`template_id` is truthy) but, in this iteration, never used.  For a
recurring row the code evaluates
`item['recurring_weekdays'] and item['recurring_time']`: when the first
operand is truthy the second is evaluated, and the web schema has no
`recurring_time` column, so `sqlite3.Row` raises `IndexError` (caught by
the per-row handler). -/
def webProcessItem (nowKey : Nat) (db : WebDb) (item : ScheduleRow) : LoadResult :=
  match fromiso? item.scheduled_datetime with
  | none => .errored "ValueError: invalid isoformat string"
  | some scheduled_dt =>
    if !item.is_recurring && decide (scheduled_dt < nowKey) then .skippedPast
    else
      let payload_data : Option TemplateData :=
        if pyTruthyNat item.template_id then
          (get_template db (item.template_id.getD 0)).bind (fun t => t.payloadData)
        else none
      if item.is_recurring then
        if pyTruthyStr item.recurring_weekdays then
          .errored "IndexError: No item with that key"
        else registerCron item.id "0 * * * *"
      else .registered ("schedule_" ++ toString item.id) (.date scheduled_dt)

/-- `load_scheduled_jobs` of `web/app.py` (lines 48-109): sweep expired
one-shot rows, then process every remaining row.  The clock is read once
for the sweep (as the adapted `datetime` string `nowSweep`) and again
inside the loop (`nowKey`). -/
def web_load_scheduled_jobs (nowSweep : String) (nowKey : Nat) (db : WebDb) :
    WebDb × List LoadResult :=
  let remaining := clear_expired_scheduled_items nowSweep db.schedule
  let db1 := { db with schedule := remaining }
  (db1, remaining.map (webProcessItem nowKey db1))

/-- A row of the root iteration schema (`sql.py` `init_db`), which does
have a `recurring_time` column. -/
structure RootScheduleRow : Type where
  id : Nat
  label : String
  scheduled_datetime : String
  is_recurring : Bool
  recurring_weekdays : Option String := none
  recurring_time : Option String := none
  template_id : Option Nat := none
deriving DecidableEq

/-- One iteration of the row loop of `load_scheduled_jobs` in `sql.py`
(lines 495-555).  The template payload there only populates the display
kwargs of the callback and never affects whether or with which trigger a
row is registered; those kwargs are omitted here (their colour values are
modelled as structured, so the `tuple(...)` call of the kwargs block
cannot raise). -/
def rootProcessItem (nowKey : Nat) (item : RootScheduleRow) : LoadResult :=
  match fromiso? item.scheduled_datetime with
  | none => .errored "ValueError: invalid isoformat string"
  | some scheduled_dt =>
    if !item.is_recurring && decide (scheduled_dt < nowKey) then .skippedPast
    else
      if item.is_recurring then
        if pyTruthyStr item.recurring_weekdays && pyTruthyStr item.recurring_time then
          match create_cron_from_weekdays_time (item.recurring_weekdays.getD "")
              (item.recurring_time.getD "") with
          | some cron_expr => registerCron item.id cron_expr
          | none => registerCron item.id "0 * * * *"
        else registerCron item.id "0 * * * *"
      else .registered ("schedule_" ++ toString item.id) (.date scheduled_dt)

/-- `load_scheduled_jobs` of `sql.py` (lines 484-555): no sweep, every row
processed independently. -/
def root_load_scheduled_jobs (nowKey : Nat) (items : List RootScheduleRow) :
    List LoadResult :=
  items.map (rootProcessItem nowKey)

/-! ### Claim C2 -/

/-- A recurring row whose `recurring_time` cannot be converted into a
firing rule. -/
def c2BadRow : RootScheduleRow :=
  { id := 5, label := "weekday brief", scheduled_datetime := "2024-01-01 00:00:00",
    is_recurring := true, recurring_weekdays := some "0,2,4",
    recurring_time := some "morning" }

/-- A row whose processing raises (unparsable `scheduled_datetime`). -/
def c2ErrRow : RootScheduleRow :=
  { id := 6, label := "broken row", scheduled_datetime := "garbage",
    is_recurring := true, recurring_weekdays := some "0",
    recurring_time := some "09:30" }

/-- A healthy recurring row. -/
def c2GoodRow : RootScheduleRow :=
  { id := 7, label := "mwf brief", scheduled_datetime := "2024-01-01 00:00:00",
    is_recurring := true, recurring_weekdays := some "0,2,4",
    recurring_time := some "09:30" }

/-- 2026-10-12 00:00:00 as a timestamp key. -/
def c2NowKey : Nat := (fromiso? "2026-10-12 00:00:00").getD 0

/-- Claim C2 counterexample: a schedule row whose weekday/time fields cannot be
converted into a firing rule (`create_cron_from_weekdays_time` returns
`None` on time `"morning"`) is NOT left without a timer: reconciliation
registers it with the fallback hourly cron trigger `0 * * * *`. -/
theorem resolution_failure_registers_fallback_timer :
    create_cron_from_weekdays_time "0,2,4" "morning" = none
    ∧ rootProcessItem c2NowKey c2BadRow =
        .registered "schedule_5" (.cron ⟨some 0, none, none⟩) := by
  exact ⟨by decide, by decide⟩

/-- Claim C2 amended: a row whose weekday/time fields cannot be converted is
registered with the fallback hourly trigger (not with no timer); a row
whose processing raises is left unregistered; neither failure prevents the
remaining rows from being resolved and registered, since every row is
processed independently. -/
theorem resolution_failures_isolated_with_fallback :
    root_load_scheduled_jobs c2NowKey [c2BadRow, c2ErrRow, c2GoodRow] =
      [.registered "schedule_5" (.cron ⟨some 0, none, none⟩),
       .errored "ValueError: invalid isoformat string",
       .registered "schedule_7" (.cron ⟨some 30, some 9, some [1, 3, 5]⟩)]
    ∧ (∀ (nowKey : Nat) (xs ys : List RootScheduleRow),
        root_load_scheduled_jobs nowKey (xs ++ ys) =
          root_load_scheduled_jobs nowKey xs ++ root_load_scheduled_jobs nowKey ys) := by
  exact ⟨by decide, fun nowKey xs ys => List.map_append _ xs ys⟩

/-! ### Claim C4 -/

/-- An old recurring row (weekday set `{0,2,4}`). -/
def c4OldRecurring : ScheduleRow :=
  { id := 3, name := "mwf brief", scheduled_datetime := "2020-01-06 09:30:00",
    is_recurring := true, recurring_weekdays := some "0,2,4" }

/-- An expired one-shot row. -/
def c4OldOneShot : ScheduleRow :=
  { id := 4, name := "old one-shot", scheduled_datetime := "2020-01-06 09:30:00",
    is_recurring := false }

/-- The sweep bound, as the sqlite-adapted `datetime.now()` string. -/
def c4NowStr : String := "2026-10-12 00:00:00.000000"

/-- 2026-10-12 00:00:00 as a timestamp key for the loop clock. -/
def c4NowKey : Nat := (fromiso? "2026-10-12 00:00:00").getD 0

/-- The store holding the two old rows. -/
def c4Db : WebDb :=
  { templates := [], schedule := [c4OldRecurring, c4OldOneShot], lastRun := none }

/-- Claim C4: the startup sweep keeps exactly the rows that are recurring or not
strictly before now (so it deletes exactly the expired one-shots), and the
old recurring row survives the sweep; but the claim that recurring rows
are never skipped during registration fails — `web/app.py` reads the
`recurring_time` column, absent from the web schema, so every recurring
row with a weekday set is dropped by the per-row exception handler and no
timer is registered for it. -/
theorem sweep_exact_but_recurring_row_dropped :
    (∀ (nowS : String) (rows : List ScheduleRow) (r : ScheduleRow),
        r ∈ clear_expired_scheduled_items nowS rows ↔
          (r ∈ rows ∧
            ¬(sqlTextLt r.scheduled_datetime nowS = true ∧ r.is_recurring = false)))
    ∧ web_load_scheduled_jobs c4NowStr c4NowKey c4Db =
        ({ templates := [], schedule := [c4OldRecurring], lastRun := none },
         [.errored "IndexError: No item with that key"]) := by
  refine ⟨?_, by decide⟩
  intro nowS rows r
  simp only [clear_expired_scheduled_items, List.mem_filter]
  refine and_congr_right fun _ => ?_
  cases hlt : sqlTextLt r.scheduled_datetime nowS <;>
    cases hrec : r.is_recurring <;> simp [hlt, hrec]

/-! ## The device channel and `send_command` (`web/sign.py`) -/

/-- What happens at the socket when one wire line is written: either the
full exchange succeeds and yields the single-line response (read up to a
newline), or the connection fails in one of the ways `send_command`
distinguishes. -/
inductive ChannelOutcome : Type where
  | ok (response : String)
  | fileNotFound
  | connectionRefused
  | exn (msg : String)
deriving DecidableEq

/-- The device channel: for each wire line (command plus trailing newline)
written to `/tmp/ledsign.sock`, the outcome of the exchange. -/
def Channel : Type := String → ChannelOutcome

/-- `send_command` (`web/sign.py` lines 18-51): writes `command + "\n"` to
the socket and reads the response up to a newline.  The whole body sits in
a `try` whose handlers catch `FileNotFoundError`, `ConnectionRefusedError`
and every other `Exception`, each returning a string, so the function is
total (it never raises) by construction. -/
def send_command (channel : Channel) (command : String) : String :=
  match channel (command ++ "\n") with
  | .ok response => response
  | .fileNotFound => "ERROR: LED sign server not running (socket not found)"
  | .connectionRefused => "ERROR: Connection refused by LED sign server"
  | .exn e => "ERROR: " ++ e

/-- Claim C9: whenever the channel exchange does not succeed — missing socket,
refused connection, or any other exception — `send_command` returns a
string beginning with `"ERROR:"` instead of raising. -/
theorem send_command_failure_yields_error_string (channel : Channel)
    (command : String)
    (h : ∀ response, channel (command ++ "\n") ≠ ChannelOutcome.ok response) :
    ∃ rest, send_command channel command = "ERROR:" ++ rest := by
  cases hc : channel (command ++ "\n") with
  | ok r => exact absurd hc (h r)
  | fileNotFound =>
    exact ⟨" LED sign server not running (socket not found)", by
      simp [send_command, hc]⟩
  | connectionRefused =>
    exact ⟨" Connection refused by LED sign server", by simp [send_command, hc]⟩
  | exn e =>
    refine ⟨" " ++ e, ?_⟩
    simp only [send_command, hc]
    rw [← String.append_assoc, (by decide : "ERROR: " = "ERROR:" ++ " ")]

/-- Witness for C9 at a concrete channel: a refused connection on `CLEAR`. -/
theorem send_command_failure_yields_error_string_witness :
    ∃ rest,
      send_command (fun _ => ChannelOutcome.connectionRefused) "CLEAR" =
        "ERROR:" ++ rest :=
  send_command_failure_yields_error_string
    (fun _ => ChannelOutcome.connectionRefused) "CLEAR"
    (fun _ h => ChannelOutcome.noConfusion h)

/-! ## The Executor (`web/sign.py` `execute_scheduled_item`, lines 72-124)

The `try:` that once guarded the body is commented out (line 81), so an
exception raised inside the body escapes the function. -/

/-- Outcome of one Executor invocation. -/
inductive ExecOutcome : Type where
  | raised (msg : String)
  | templateMissing
  | invalidPayload
  | sent (command : String) (response : String)
deriving DecidableEq

/-- The fragment appended for an item with `type == "static"`
(line 112): `STATIC;{text};{x};{y};({r},{g},{b});END;` with the
`dict.get` defaults `content -> name`, `x -> 0`, `y -> 10`,
`color -> (255, 255, 0)`. -/
def staticFragment (name : String) (item : PayloadItem) : String :=
  let text := item.content.getD name
  let x := item.x.getD 0
  let y := item.y.getD 10
  let color := item.color.getD (255, 255, 0)
  "STATIC;" ++ text ++ ";" ++ toString x ++ ";" ++ toString y ++ ";(" ++
    toString color.1 ++ "," ++ toString color.2.1 ++ "," ++
    toString color.2.2 ++ ");END;"

/-- The fragment appended for an item with `type == "scrolling"`
(line 121), with the additional default `speed -> 1`. -/
def scrollingFragment (name : String) (item : PayloadItem) : String :=
  let text := item.content.getD name
  let x := item.x.getD 0
  let y := item.y.getD 10
  let color := item.color.getD (255, 255, 0)
  let speed := item.speed.getD 1
  "SCROLL;" ++ text ++ ";" ++ toString x ++ ";" ++ toString y ++ ";(" ++
    toString color.1 ++ "," ++ toString color.2.1 ++ "," ++
    toString color.2.2 ++ ");" ++ toString speed ++ ";END;"

/-- The command-composition loop (lines 101-121): starting from `"SET"`,
each item appends its static fragment when its type is `"static"` and its
scrolling fragment when its type is `"scrolling"` (two independent `if`s;
items of any other type append nothing and are skipped). -/
def composeCommand (name : String) (items : List PayloadItem) : String :=
  items.foldl
    (fun command item =>
      let command :=
        if item.type_ == some "static" then command ++ staticFragment name item
        else command
      if item.type_ == some "scrolling" then command ++ scrollingFragment name item
      else command)
    "SET"

/-- `execute_scheduled_item` (`web/sign.py` lines 72-124).  The store is
threaded through and returned so that its (non-)mutation is visible:
nothing anywhere in the repository inserts or updates the `last_run` row,
and this function performs no store write at all.

* A missing schedule row makes `get_scheduled_item` return `None`, and the
  following `scheduled_item['template_id']` subscript raises `TypeError`,
  which escapes (the `try:` is commented out).
* A `NULL` `template_id` makes `get_template(None)` match no row; that and
  a missing template row take the reported `Template not found` return.
* A payload that does not parse takes the reported `Invalid payload`
  return.  (An empty parsed JSON object is also falsy in Python and would
  take the same branch; parsed payloads are modelled here as objects with
  at least one key.)
* Otherwise the composed command is sent and the response printed. -/
def execute_scheduled_item (db : WebDb) (channel : Channel) (schedule_id : Nat)
    (name : String) : ExecOutcome × WebDb :=
  match get_scheduled_item db schedule_id with
  | none => (.raised "TypeError: NoneType object is not subscriptable", db)
  | some scheduled_item =>
    let template :=
      match scheduled_item.template_id with
      | some tid => get_template db tid
      | none => none
    match template with
    | none => (.templateMissing, db)
    | some t =>
      match t.payloadData with
      | none => (.invalidPayload, db)
      | some template_data =>
        let sign_config := template_data.items.getD []
        let command := composeCommand name sign_config
        let response := send_command channel command
        (.sent command response, db)

/-! ### Claims C5, C1, C7 -/

/-- A template whose payload holds the single static item
`{content "HI", x 0, y 10, color [255,0,0]}`. -/
def c5Template : TemplateRow :=
  { id := 1, name := "greeting",
    payloadData := some
      { tname := some "greeting",
        items := some [{ type_ := some "static", content := some "HI",
                         x := some 0, y := some 10, color := some (255, 0, 0) }] } }

/-- A schedule row bound to that template. -/
def c5Schedule : ScheduleRow :=
  { id := 1, name := "say hi", scheduled_datetime := "2026-12-01 09:00:00",
    is_recurring := false, template_id := some 1 }

/-- Store with the template, the schedule bound to it, and no marker. -/
def c5Db : WebDb :=
  { templates := [c5Template], schedule := [c5Schedule], lastRun := none }

/-- A channel on which every exchange succeeds with response `OK`. -/
def okChannel : Channel := fun _ => .ok "OK"

/-- Claim C5: executing the schedule bound to the single-static-item template
sends the byte-exact command `SETSTATIC;HI;0;10;(255,0,0);END;` over the
channel. -/
theorem execute_sends_byte_exact_static_command :
    execute_scheduled_item c5Db okChannel 1 "say hi" =
      (.sent "SETSTATIC;HI;0;10;(255,0,0);END;" "OK", c5Db) := by decide

/-- Claim C1: the Executor never upserts the Last-Run Marker — on every
invocation, including the one above that ends in a successful
transmission, the `last_run` state is returned unchanged (no code in the
repository ever writes that row). -/
theorem marker_never_upserted_after_transmission :
    (∀ (db : WebDb) (channel : Channel) (schedule_id : Nat) (name : String),
        (execute_scheduled_item db channel schedule_id name).2.lastRun = db.lastRun)
    ∧ (execute_scheduled_item c5Db okChannel 1 "say hi").1 =
        .sent "SETSTATIC;HI;0;10;(255,0,0);END;" "OK"
    ∧ (execute_scheduled_item c5Db okChannel 1 "say hi").2.lastRun = none := by
  refine ⟨?_, by decide, by decide⟩
  intro db channel schedule_id name
  unfold execute_scheduled_item
  cases get_scheduled_item db schedule_id with
  | none => rfl
  | some scheduled_item =>
    cases htm : (match scheduled_item.template_id with
      | some tid => get_template db tid
      | none => none : Option TemplateRow) with
    | none => simp [htm]
    | some t =>
      cases hp : t.payloadData with
      | none => simp [htm, hp]
      | some template_data => simp [htm, hp]

/-- A store with one schedule row whose `template_id` points at no
template. -/
def c7Db : WebDb :=
  { templates := [],
    schedule := [{ id := 1, name := "orphan",
                   scheduled_datetime := "2026-12-01 09:00:00",
                   is_recurring := false, template_id := some 77 }],
    lastRun := none }

/-- The empty store. -/
def emptyDb : WebDb := { templates := [], schedule := [], lastRun := none }

/-- Claim C7: invoking the Executor with a schedule id that has no row raises an
uncaught `TypeError` (the `try:` is commented out), so the failure is NOT
merely reported — the exception escapes the Executor; a missing template
row, by contrast, is handled by the reported early return. -/
theorem missing_schedule_id_raises_in_executor :
    execute_scheduled_item emptyDb okChannel 999 "ghost" =
      (.raised "TypeError: NoneType object is not subscriptable", emptyDb)
    ∧ execute_scheduled_item c7Db okChannel 1 "orphan" =
      (.templateMissing, c7Db) := by
  exact ⟨by decide, by decide⟩

/-! ## Crash Recovery (`web/sql.py` `get_last_run`, `recover_scheduled_jobs`) -/

/-- `get_last_run` (`web/sql.py` lines 378-396):
`SELECT * FROM last_run WHERE id = 1`, returned as a dict, `None` when the
singleton row is absent. -/
def get_last_run (db : WebDb) : Option LastRunRow := db.lastRun

/-- `datetime.fromisoformat` applied to a nullable column value: `NULL`
raises `TypeError`, an unparsable string raises `ValueError`. -/
def pyFromisoformat (v : Option String) : Except String Nat :=
  match v with
  | none => .error "TypeError: fromisoformat argument must be str"
  | some s =>
    match fromiso? s with
    | some k => .ok k
    | none => .error "ValueError: invalid isoformat string"

/-- `get_scheduled_item` called with the nullable `schedule_id` column
(`get_scheduled_item(None)` matches no row). -/
def get_scheduled_item_nullable (db : WebDb) : Option Nat → Option ScheduleRow
  | none => none
  | some sid => get_scheduled_item db sid

/-- `recover_scheduled_jobs` (`web/sql.py` lines 399-412): read the
marker; if absent, fall through (no-op).  If present, parse its datetime
(an uncaught exception on failure), load the referenced schedule row, and
only when that row exists re-execute it synchronously.  Returns the
executor invocation, if any; `Except.error` models an exception escaping
the procedure. -/
def recover_scheduled_jobs (db : WebDb) (channel : Channel) :
    Except String (Option (ExecOutcome × WebDb)) :=
  match get_last_run db with
  | none => .ok none
  | some last_run =>
    match pyFromisoformat last_run.last_run_datetime with
    | .error e => .error e
    | .ok _last_run_time =>
      match get_scheduled_item_nullable db last_run.schedule_id with
      | none => .ok none
      | some schedule =>
        match execute_scheduled_item db channel (last_run.schedule_id.getD 0)
            schedule.name with
        | (.raised msg, _) => .error msg
        | result => .ok (some result)

/-- Claim C6: Crash Recovery is a no-op, executing nothing and raising nothing,
both when the marker row is absent and when the marker (with a parseable
datetime) references a schedule id that no longer exists. -/
theorem recover_noop_on_absent_or_dangling_marker (db : WebDb) (channel : Channel) :
    (db.lastRun = none → recover_scheduled_jobs db channel = .ok none)
    ∧ (∀ m : LastRunRow, db.lastRun = some m →
        (pyFromisoformat m.last_run_datetime).isOk = true →
        get_scheduled_item_nullable db m.schedule_id = none →
        recover_scheduled_jobs db channel = .ok none) := by
  constructor
  · intro h
    simp [recover_scheduled_jobs, get_last_run, h]
  · intro m hm hp hs
    simp only [recover_scheduled_jobs, get_last_run, hm]
    cases hpf : pyFromisoformat m.last_run_datetime with
    | error e => rw [hpf] at hp; simp [Except.isOk, Except.toBool] at hp
    | ok k => simp [hpf, hs]

/-- A store whose marker points at schedule id 42, which has no row. -/
def c6Db : WebDb :=
  { templates := [], schedule := [],
    lastRun := some { last_run_datetime := some "2026-01-01 10:00:00",
                      schedule_id := some 42 } }

/-- Witness for C6: concrete dangling marker, concrete no-op. -/
theorem recover_noop_on_absent_or_dangling_marker_witness :
    recover_scheduled_jobs c6Db okChannel = .ok none :=
  (recover_noop_on_absent_or_dangling_marker c6Db okChannel).2
    { last_run_datetime := some "2026-01-01 10:00:00", schedule_id := some 42 }
    rfl (by decide) rfl

/-! ## `with_conn` and `remove_template` (claim C10) -/

/-- The per-connection settings established by the `with_conn` decorator
(`web/sql.py` lines 30-40): it issues `PRAGMA journal_mode=WAL` and
`PRAGMA synchronous=NORMAL` and nothing else.  `PRAGMA foreign_keys` is
never issued on any connection in the repository, so enforcement keeps
the SQLite per-connection default: off. -/
structure ConnSettings : Type where
  journalMode : String
  synchronous : String
  foreignKeys : Bool
deriving DecidableEq

/-- Settings of every connection opened by `with_conn`. -/
def with_conn_settings : ConnSettings :=
  { journalMode := "wal", synchronous := "normal", foreignKeys := false }

/-- `DELETE FROM templates WHERE id = ?` under the schema's
`ON DELETE CASCADE` foreign key from `schedule.template_id`
(`web/sql.py` line 66): the cascade deletes referencing schedule rows only
when the connection enforces foreign keys.  Returns the new store and the
`rowcount`. -/
def sqlDeleteTemplate (foreignKeys : Bool) (db : WebDb) (template_id : Nat) :
    WebDb × Nat :=
  let removed := (db.templates.filter (fun t => t.id == template_id)).length
  let templates1 := db.templates.filter (fun t => !(t.id == template_id))
  let schedule1 :=
    if foreignKeys then
      db.schedule.filter (fun s => !(s.template_id == some template_id))
    else db.schedule
  ({ db with templates := templates1, schedule := schedule1 }, removed)

/-- `remove_template` (`web/sql.py` lines 228-240), run through
`with_conn`: delete the templates row with the given id and return
`rowcount > 0`. -/
def remove_template (db : WebDb) (template_id : Nat) : WebDb × Bool :=
  let r := sqlDeleteTemplate with_conn_settings.foreignKeys db template_id
  (r.1, decide (r.2 > 0))

/-- A list whose keys are distinct has at most one entry with any given
key. -/
theorem nodup_key_filter_length_le_one {α : Type} (key : α → Nat) (k : Nat) :
    ∀ l : List α, (l.map key).Nodup → (l.filter (fun t => key t == k)).length ≤ 1 := by
  intro l
  induction l with
  | nil => intro _; simp
  | cons a l ih =>
    intro h
    simp only [List.map_cons, List.nodup_cons] at h
    by_cases hk : key a == k
    · have hk2 : key a = k := by simpa using hk
      have : l.filter (fun t => key t == k) = [] := by
        apply List.filter_eq_nil_iff.2
        intro x hx hpx
        apply h.1
        have hkx : key x = k := by simpa using hpx
        have hmem : k ∈ List.map key l := hkx ▸ List.mem_map_of_mem key hx
        rwa [hk2]
      simp [List.filter_cons, hk, this]
    · simpa [List.filter_cons, hk] using ih h.2

/-- A filter and its complement split the length of a list. -/
theorem length_filter_split {α : Type} (p : α → Bool) :
    ∀ l : List α, l.length = (l.filter p).length + (l.filter (fun a => !(p a))).length := by
  intro l
  induction l with
  | nil => rfl
  | cons a l ih =>
    by_cases hp : p a <;> simp [List.filter_cons, hp, ih] <;> omega

/-- Claim C10: `remove_template` leaves every schedule row (and the marker)
unchanged — the schema's `ON DELETE CASCADE` is never activated because no
connection enables foreign-key enforcement — removes exactly the templates
rows carrying the given id (at most one, under the primary-key uniqueness
of ids), and returns `True` exactly when such a row existed. -/
theorem remove_template_frame (db : WebDb) (template_id : Nat) :
    (remove_template db template_id).1.schedule = db.schedule
    ∧ (remove_template db template_id).1.lastRun = db.lastRun
    ∧ (remove_template db template_id).1.templates =
        db.templates.filter (fun t => !(t.id == template_id))
    ∧ ((remove_template db template_id).2 = true ↔
        (db.templates.find? (fun t => t.id == template_id)).isSome = true)
    ∧ ((db.templates.map (fun t => t.id)).Nodup →
        db.templates.length ≤ (remove_template db template_id).1.templates.length + 1) := by
  refine ⟨rfl, rfl, rfl, ?_, ?_⟩
  · simp only [remove_template, sqlDeleteTemplate, with_conn_settings,
      decide_eq_true_eq]
    rw [List.find?_isSome]
    constructor
    · intro h
      have hne : db.templates.filter (fun t => t.id == template_id) ≠ [] := by
        intro hnil
        rw [hnil] at h
        simp at h
      obtain ⟨x, hx⟩ := List.exists_mem_of_ne_nil _ hne
      exact ⟨x, (List.mem_filter.1 hx).1, (List.mem_filter.1 hx).2⟩
    · rintro ⟨x, hmem, hpx⟩
      have : x ∈ db.templates.filter (fun t => t.id == template_id) :=
        List.mem_filter.2 ⟨hmem, hpx⟩
      exact List.length_pos.2 (List.ne_nil_of_mem this)
  · intro hnodup
    have h1 : (db.templates.filter (fun t => t.id == template_id)).length ≤ 1 :=
      nodup_key_filter_length_le_one (fun t : TemplateRow => t.id)
        template_id db.templates hnodup
    have h2 := length_filter_split (fun t : TemplateRow => t.id == template_id)
      db.templates
    simp only [remove_template, sqlDeleteTemplate, with_conn_settings]
    omega

/-- A store with two templates and a schedule row referencing the first. -/
def c10Db : WebDb :=
  { templates := [{ id := 1, name := "a", payloadData := none },
                  { id := 2, name := "b", payloadData := none }],
    schedule := [{ id := 9, name := "uses a",
                   scheduled_datetime := "2026-01-01 00:00:00",
                   is_recurring := false, template_id := some 1 }],
    lastRun := none }

/-- Witness for C10: deleting template 1 from the concrete store. -/
theorem remove_template_frame_witness :
    (remove_template c10Db 1).1.schedule = c10Db.schedule
    ∧ (remove_template c10Db 1).2 = true
    ∧ c10Db.templates.length ≤ (remove_template c10Db 1).1.templates.length + 1 := by
  obtain ⟨h1, _, _, h4, h5⟩ := remove_template_frame c10Db 1
  exact ⟨h1, h4.2 (by decide), h5 (by decide)⟩

/-! ## Creation operations and colour validation (claim C8)

`web/app.py` `route_add_template` builds the payload with `parse_form`
(lines 343-400); `route_add_schedule` (lines 181-290) builds a custom
payload when no template is selected; `web/form.py` holds the manual
control validator. -/

/-- The per-index fields of one template-form text item as submitted
(`none` models an absent field, for which `form.get` supplies its
default). -/
structure FormTextItem : Type where
  content : String := ""
  xStr : Option String := none
  yStr : Option String := none
  colorStr : Option String := none
  elementType : Option String := none
  speedStr : Option String := none
deriving DecidableEq

/-- A payload item as `parse_form` appends it. -/
structure FormPayloadItem : Type where
  type_ : String
  content : String
  x : Int
  y : Int
  color : List Int
  speed : Option Int := none
deriving DecidableEq

/-- `int(form.get(field, dflt))` where the form default is already an
integer: an absent field yields the default, a present one goes through
`int(...)`. -/
def formInt? (v : Option String) (dflt : Int) : Option Int :=
  match v with
  | none => some dflt
  | some s => pyInt? s

/-- `[int(color_hex[j:j+2], 16) for j in (0, 2, 4)]`: the first failing
`int(..., 16)` raises (`none`). -/
def hexPairs? (color_hex : String) : Option (List Int) := do
  let c0 ← pyHex? (pySlice color_hex 0 2)
  let c2 ← pyHex? (pySlice color_hex 2 4)
  let c4 ← pyHex? (pySlice color_hex 4 6)
  some [(c0 : Int), (c2 : Int), (c4 : Int)]

/-- The `try` body for one non-empty item of `parse_form` (`web/app.py`
lines 359-396).  `none` is the `except (ValueError, TypeError)` that
skips the item; the returned `Bool` is whether the running template type
was switched to `"mixed"` — that mutation happens before the speed parse,
so even an item later skipped on a bad speed switches it. -/
def parseFormItemStep (content : String) (it : FormTextItem) :
    Bool × Option FormPayloadItem :=
  match formInt? it.xStr 0 with
  | none => (false, none)
  | some x =>
    match formInt? it.yStr 10 with
    | none => (false, none)
    | some y =>
      let color_hex := pyLstrip (it.colorStr.getD "#ffff00") '#'
      if color_hex.data.length ≠ 6 then (false, none)
      else
        match hexPairs? color_hex with
        | none => (false, none)
        | some color =>
          let element_type := it.elementType.getD "static"
          if element_type == "mixed" then
            match formInt? it.speedStr 1 with
            | none => (true, none)
            | some speed =>
              (true, some { type_ := "scroll", content := content, x := x, y := y,
                            color := color, speed := some speed })
          else
            (false, some { type_ := element_type, content := content, x := x,
                           y := y, color := color })

/-- `parse_form` (`web/app.py` lines 343-400): iterates the indexed text
items, skipping empty content and (silently) every item whose parsing
raises, and returns the payload `type` together with the accepted items
in submission order. -/
def parse_form (items : List FormTextItem) : String × List FormPayloadItem :=
  items.foldl
    (fun acc it =>
      let content := pyStrip it.content
      if content == "" then acc
      else
        let step := parseFormItemStep content it
        let ty := if step.1 then "mixed" else acc.1
        match step.2 with
        | some item => (ty, acc.2 ++ [item])
        | none => (ty, acc.2))
    ("static", [])

/-- Outcome of `route_add_template` (`web/app.py` lines 315-339):
`created` marks that `add_template` ran and exactly one templates row was
inserted (with the JSON dump of the listed items as payload); the error
outcomes flash a message and insert nothing. -/
inductive AddTemplateOutcome : Type where
  | emptyNameError
  | noItemsError
  | created (name : String) (payloadItems : List FormPayloadItem)
deriving DecidableEq

/-- `route_add_template`: an empty stripped name is rejected; a payload
with no accepted items is rejected; otherwise the template is persisted. -/
def route_add_template (template_name : String) (form : List FormTextItem) :
    AddTemplateOutcome :=
  let label := pyStrip template_name
  if label == "" then .emptyNameError
  else
    let form_json := parse_form form
    if form_json.2.isEmpty then .noItemsError
    else .created label form_json.2

/-- The flash message classes of `route_add_schedule`. -/
inductive Flash : Type where
  | missingDatetime
  | missingRecurrence
  | invalidInput (msg : String)
  | errorAdding (msg : String)
  | success
deriving DecidableEq

/-- Result of one `route_add_schedule` request: the flash shown, how many
templates/schedule rows the request inserted, and the trigger registered
with the scheduler (if any). -/
structure AddScheduleResult : Type where
  flash : Flash
  templatesAdded : Nat
  schedulesAdded : Nat
  registered : Option Trigger
deriving DecidableEq

/-- The fields of an `add_schedule` form submission (`none` models an
absent field). -/
structure ScheduleForm : Type where
  label : String := ""
  scheduled_datetime : String := ""
  is_recurring : Bool := false
  template_id : Option String := none
  weekdays : List String := []
  recurring_time : String := ""
  custom_text : String := ""
  custom_color : Option String := none
deriving DecidableEq

/-- The tail of the `route_add_schedule` `try` block once the rows are
inserted (`web/app.py` lines 255-283): register the cron or date trigger.
`CronTrigger.from_crontab` and `datetime.fromisoformat` raise
`ValueError`, caught at line 285 — after the rows were already
persisted. -/
def scheduleRegisterStep (now : Nat) (is_recurring : Bool)
    (recurring_weekdays recurring_time : Option String)
    (scheduled_datetime : String) (tpl : Nat) : AddScheduleResult :=
  if is_recurring && pyTruthyStr recurring_weekdays && pyTruthyStr recurring_time then
    let cron_expr := create_cron_from_weekdays_time (recurring_weekdays.getD "")
      (recurring_time.getD "")
    match from_crontab (cron_expr.getD "0 9 * * *") with
    | some rule =>
      { flash := .success, templatesAdded := tpl, schedulesAdded := 1,
        registered := some (.cron rule) }
    | none =>
      { flash := .invalidInput "ValueError: invalid crontab expression",
        templatesAdded := tpl, schedulesAdded := 1, registered := none }
  else if !is_recurring then
    match fromiso? scheduled_datetime with
    | none =>
      { flash := .invalidInput "ValueError: invalid isoformat string",
        templatesAdded := tpl, schedulesAdded := 1, registered := none }
    | some scheduled_dt =>
      if now < scheduled_dt then
        { flash := .success, templatesAdded := tpl, schedulesAdded := 1,
          registered := some (.date scheduled_dt) }
      else
        { flash := .success, templatesAdded := tpl, schedulesAdded := 1,
          registered := none }
  else
    { flash := .success, templatesAdded := tpl, schedulesAdded := 1,
      registered := none }

/-- `route_add_schedule` (`web/app.py` lines 181-290).  `Except.error`
models an exception raised outside the `try` (the bare `int(template_id)`
at line 222); counters record the `add_template`/`add_scheduled_item`
inserts (each inserts exactly one row). -/
def route_add_schedule (now : Nat) (form : ScheduleForm) :
    Except String AddScheduleResult :=
  let recurring_weekdays : Option String :=
    if form.is_recurring && !form.weekdays.isEmpty then
      some (pyJoin ',' form.weekdays)
    else none
  let recurring_time : Option String :=
    if form.is_recurring then
      (if form.recurring_time == "" then none else some form.recurring_time)
    else none
  let scheduled_datetime :=
    if form.is_recurring && (form.scheduled_datetime == "") then
      "2024-01-01 00:00:00"
    else form.scheduled_datetime
  if !form.is_recurring && (scheduled_datetime == "") then
    .ok { flash := .missingDatetime, templatesAdded := 0, schedulesAdded := 0,
          registered := none }
  else if form.is_recurring &&
      (!pyTruthyStr recurring_weekdays || !pyTruthyStr recurring_time) then
    .ok { flash := .missingRecurrence, templatesAdded := 0, schedulesAdded := 0,
          registered := none }
  else
    match form.template_id with
    | none => .error "TypeError: int() argument must be a string, not NoneType"
    | some tidStr =>
      if tidStr == "" then
        let color_hex := pyLstrip (form.custom_color.getD "#ffff00") '#'
        match hexPairs? color_hex with
        | none =>
          .ok { flash := .invalidInput "ValueError: invalid literal for int() with base 16",
                templatesAdded := 0, schedulesAdded := 0, registered := none }
        | some _color =>
          .ok (scheduleRegisterStep now form.is_recurring recurring_weekdays
            recurring_time scheduled_datetime 1)
      else
        match pyInt? tidStr with
        | none => .error "ValueError: invalid literal for int()"
        | some _tid =>
          .ok (scheduleRegisterStep now form.is_recurring recurring_weekdays
            recurring_time scheduled_datetime 0)

/-- `parseManualControlForm` (`web/form.py` lines 3-15): raises
`ValueError` when the stripped colour hex is not exactly six characters
(or when any `int(...)` fails); nothing is ever persisted by this
validator. -/
def parseManualControlForm (text x y color : Option String) :
    Except String (String × Int × Int × (Nat × Nat × Nat)) :=
  let text1 := pyStrip (text.getD "")
  match formInt? x 0 with
  | none => .error "ValueError: invalid literal for int()"
  | some xv =>
    match formInt? y 10 with
    | none => .error "ValueError: invalid literal for int()"
    | some yv =>
      let color_hex := pyLstrip (color.getD "#ffff00") '#'
      if color_hex.data.length ≠ 6 then .error "ValueError: Invalid color format"
      else
        match pyHex? (pySlice color_hex 0 2), pyHex? (pySlice color_hex 2 4),
            pyHex? (pySlice color_hex 4 6) with
        | some r, some g, some b => .ok (text1, xv, yv, (r, g, b))
        | _, _, _ => .error "ValueError: invalid literal for int() with base 16"

/-! ### Claim C8 -/

/-- An item with the malformed colour `"#12"`. -/
def c8BadItem : FormTextItem := { content := "A", colorStr := some "#12" }

/-- A well-formed item. -/
def c8GoodItem : FormTextItem := { content := "B", colorStr := some "#00ff00" }

/-- 2026-10-12 00:00:00 as a timestamp key. -/
def c8Now : Nat := (fromiso? "2026-10-12 00:00:00").getD 0

/-- Claim C8 counterexample: a template-creation submission containing the
malformed colour `"#12"` does NOT fail — the malformed item is silently
skipped and the template row is persisted with the remaining valid
item. -/
theorem malformed_color_item_silently_skipped :
    route_add_template "T" [c8BadItem, c8GoodItem] =
      .created "T" [{ type_ := "static", content := "B", x := 0, y := 10,
                      color := [0, 255, 0] }] := by decide

/-- Claim C8 amended: colour `"#12"` fails schedule creation (custom-colour
path) with a reported error and no template or schedule row persisted,
and fails the manual-control validator with `ValueError`; in template
creation a malformed-colour item is silently skipped, so the operation
fails (with a reported error and no persisted row) only when no valid
item remains. -/
theorem malformed_color_rejected_or_skipped :
    route_add_template "T" [c8BadItem] = .noItemsError
    ∧ route_add_schedule c8Now
        { label := "S", scheduled_datetime := "2026-12-01T09:00",
          template_id := some "", custom_text := "hi",
          custom_color := some "#12" } =
        .ok { flash := .invalidInput "ValueError: invalid literal for int() with base 16",
              templatesAdded := 0, schedulesAdded := 0, registered := none }
    ∧ parseManualControlForm (some "hello") none none (some "#12") =
        .error "ValueError: Invalid color format" := by
  exact ⟨by decide, by rfl, by rfl⟩

end LedSign
